import Mathlib

/-!
Verification of the GuestProxyAgent core: the serializable status schema
(src/proxy_agent_shared/src/proxy_agent_aggregate_status.rs) and the error
facade (src/proxy_agent/src/common/error.rs), embedded shallowly.

Modelling conventions:
- Rust `String` is Lean `String`; `u16`/`u64`/`u128` are `Fin (2 ^ 16)`,
  `Fin (2 ^ 64)`, `Fin (2 ^ 128)` (the unsigned range is part of the type,
  exactly as in Rust).
- `HashMap<String, String>` is a list of key-value pairs in iteration order;
  `Vec<T>` is `List T`.
- serde_json values are the inductive `JValue`; `#[derive(Serialize)]` output
  is modelled field-by-field in declaration order, honouring
  `skip_serializing_if = "Option::is_none"` on the one field that carries it;
  `#[derive(Deserialize)]` is modelled by key lookup, with `Option` fields
  reading a missing key or an explicit null as `none`.
-/

namespace GuestProxyAgent

/-! Status schema data model (proxy_agent_aggregate_status.rs). -/

inductive ModuleState where
  | UNKNOWN
  | RUNNING
  | STOPPED
deriving DecidableEq, Repr

inductive OverallState where
  | SUCCESS
  | ERROR
  | UNKNOWN
deriving DecidableEq, Repr

structure ProxyAgentDetailStatus where
  status : ModuleState
  message : String
  states : Option (List (String × String))
deriving DecidableEq, Repr

structure ProxyAgentStatus where
  version : String
  status : OverallState
  monitorStatus : ProxyAgentDetailStatus
  keyLatchStatus : ProxyAgentDetailStatus
  ebpfProgramStatus : ProxyAgentDetailStatus
  proxyListenerStatus : ProxyAgentDetailStatus
  telemetryLoggerStatus : ProxyAgentDetailStatus
  proxyConnectionsCount : Fin (2 ^ 128)
deriving DecidableEq, Repr

structure ProxyConnectionSummary where
  userName : String
  ip : String
  port : Fin (2 ^ 16)
  processCmdLine : String
  responseStatus : String
  count : Fin (2 ^ 64)
  userGroups : Option (List String)
  processFullPath : Option String
deriving DecidableEq, Repr

structure GuestProxyAgentAggregateStatus where
  timestamp : String
  proxyAgentStatus : ProxyAgentStatus
  proxyConnectionSummary : List ProxyConnectionSummary
  failedAuthenticateSummary : List ProxyConnectionSummary
deriving DecidableEq, Repr

/-- The serde_json data model: null, string, unsigned number, array, object
(an object is its fields in emission order). -/
inductive JValue where
  | null
  | str (s : String)
  | num (n : Nat)
  | arr (elems : List JValue)
  | obj (fields : List (String × JValue))

/-! Serialization, mirroring the serde derive on each type: a unit enum
variant becomes its name as a string; a struct becomes an object listing its
fields in declaration order. -/

def moduleStateToJson : ModuleState → JValue
  | .UNKNOWN => .str "UNKNOWN"
  | .RUNNING => .str "RUNNING"
  | .STOPPED => .str "STOPPED"

def overallStateToJson : OverallState → JValue
  | .SUCCESS => .str "SUCCESS"
  | .ERROR => .str "ERROR"
  | .UNKNOWN => .str "UNKNOWN"

/-- Serialization of the `states` map: a JSON object of string values. -/
def statesToJson (m : List (String × String)) : JValue :=
  .obj (m.map fun p => (p.1, .str p.2))

/-- Fields of a serialized `ProxyAgentDetailStatus`. The `states` field has
`skip_serializing_if = "Option::is_none"`: it is omitted when `none`. -/
def detailStatusEntries (d : ProxyAgentDetailStatus) : List (String × JValue) :=
  [("status", moduleStateToJson d.status), ("message", .str d.message)] ++
    (match d.states with
     | none => []
     | some m => [("states", statesToJson m)])

def detailStatusToJson (d : ProxyAgentDetailStatus) : JValue :=
  .obj (detailStatusEntries d)

def proxyAgentStatusEntries (p : ProxyAgentStatus) : List (String × JValue) :=
  [("version", .str p.version),
   ("status", overallStateToJson p.status),
   ("monitorStatus", detailStatusToJson p.monitorStatus),
   ("keyLatchStatus", detailStatusToJson p.keyLatchStatus),
   ("ebpfProgramStatus", detailStatusToJson p.ebpfProgramStatus),
   ("proxyListenerStatus", detailStatusToJson p.proxyListenerStatus),
   ("telemetryLoggerStatus", detailStatusToJson p.telemetryLoggerStatus),
   ("proxyConnectionsCount", .num p.proxyConnectionsCount.val)]

def proxyAgentStatusToJson (p : ProxyAgentStatus) : JValue :=
  .obj (proxyAgentStatusEntries p)

/-- Serialization of `Option<String>`: serde writes an explicit null for
`None` (no skip attribute on the field). -/
def optStrToJson : Option String → JValue
  | none => .null
  | some s => .str s

/-- Serialization of `Option<Vec<String>>`: explicit null for `None`. -/
def optStrListToJson : Option (List String) → JValue
  | none => .null
  | some xs => .arr (xs.map .str)

def proxyConnectionSummaryEntries (s : ProxyConnectionSummary) : List (String × JValue) :=
  [("userName", .str s.userName),
   ("ip", .str s.ip),
   ("port", .num s.port.val),
   ("processCmdLine", .str s.processCmdLine),
   ("responseStatus", .str s.responseStatus),
   ("count", .num s.count.val),
   ("userGroups", optStrListToJson s.userGroups),
   ("processFullPath", optStrToJson s.processFullPath)]

def proxyConnectionSummaryToJson (s : ProxyConnectionSummary) : JValue :=
  .obj (proxyConnectionSummaryEntries s)

def aggregateStatusEntries (g : GuestProxyAgentAggregateStatus) : List (String × JValue) :=
  [("timestamp", .str g.timestamp),
   ("proxyAgentStatus", proxyAgentStatusToJson g.proxyAgentStatus),
   ("proxyConnectionSummary", .arr (g.proxyConnectionSummary.map proxyConnectionSummaryToJson)),
   ("failedAuthenticateSummary", .arr (g.failedAuthenticateSummary.map proxyConnectionSummaryToJson))]

def aggregateStatusToJson (g : GuestProxyAgentAggregateStatus) : JValue :=
  .obj (aggregateStatusEntries g)

/-! Deserialization, mirroring serde derive: a struct reads each declared
field by key (missing required field is an error, unknown keys are ignored);
an `Option` field reads a missing key or an explicit null as `none`; a unit
enum variant is read back from its name as a string; numbers outside the
target unsigned range are an error. Failure is `none`. -/

/-- Key lookup among the fields of a serialized object. -/
def getField (fields : List (String × JValue)) (k : String) : Option JValue :=
  List.lookup k fields

/-- Reading of an `Option` field: a missing key or an explicit null is
`none`; any other value must parse. The outer `Option` is the failure
monad, the inner one the field value. -/
def optField (fields : List (String × JValue)) (k : String)
    (parse : JValue → Option α) : Option (Option α) :=
  match List.lookup k fields with
  | none => some none
  | some .null => some none
  | some v => (parse v).map some

/-- Sequential traversal of a list in the failure monad (serde deserializes
sequences element by element, failing if any element fails). -/
def traverseOpt (f : α → Option β) : List α → Option (List β)
  | [] => some []
  | a :: t => (f a).bind fun b => (traverseOpt f t).map fun bs => b :: bs

def strFromJson : JValue → Option String
  | .str s => some s
  | _ => none

def u16FromJson : JValue → Option (Fin (2 ^ 16))
  | .num n => if h : n < 2 ^ 16 then some ⟨n, h⟩ else none
  | _ => none

def u64FromJson : JValue → Option (Fin (2 ^ 64))
  | .num n => if h : n < 2 ^ 64 then some ⟨n, h⟩ else none
  | _ => none

def u128FromJson : JValue → Option (Fin (2 ^ 128))
  | .num n => if h : n < 2 ^ 128 then some ⟨n, h⟩ else none
  | _ => none

def moduleStateFromJson : JValue → Option ModuleState
  | .str "UNKNOWN" => some .UNKNOWN
  | .str "RUNNING" => some .RUNNING
  | .str "STOPPED" => some .STOPPED
  | _ => none

def overallStateFromJson : JValue → Option OverallState
  | .str "SUCCESS" => some .SUCCESS
  | .str "ERROR" => some .ERROR
  | .str "UNKNOWN" => some .UNKNOWN
  | _ => none

/-- One entry of the `states` map: the value must be a string. -/
def stateEntryFromJson : String × JValue → Option (String × String)
  | (k, .str v) => some (k, v)
  | _ => none

def statesFromJson : JValue → Option (List (String × String))
  | .obj fields => traverseOpt stateEntryFromJson fields
  | _ => none

def strListFromJson : JValue → Option (List String)
  | .arr elems => traverseOpt strFromJson elems
  | _ => none

def detailStatusFromJson : JValue → Option ProxyAgentDetailStatus
  | .obj fields =>
    (getField fields "status").bind fun v1 =>
    (moduleStateFromJson v1).bind fun status =>
    (getField fields "message").bind fun v2 =>
    (strFromJson v2).bind fun message =>
    (optField fields "states" statesFromJson).bind fun states =>
    some { status := status, message := message, states := states }
  | _ => none

def proxyAgentStatusFromJson : JValue → Option ProxyAgentStatus
  | .obj fields =>
    (getField fields "version").bind fun v1 =>
    (strFromJson v1).bind fun version =>
    (getField fields "status").bind fun v2 =>
    (overallStateFromJson v2).bind fun status =>
    (getField fields "monitorStatus").bind fun v3 =>
    (detailStatusFromJson v3).bind fun monitorStatus =>
    (getField fields "keyLatchStatus").bind fun v4 =>
    (detailStatusFromJson v4).bind fun keyLatchStatus =>
    (getField fields "ebpfProgramStatus").bind fun v5 =>
    (detailStatusFromJson v5).bind fun ebpfProgramStatus =>
    (getField fields "proxyListenerStatus").bind fun v6 =>
    (detailStatusFromJson v6).bind fun proxyListenerStatus =>
    (getField fields "telemetryLoggerStatus").bind fun v7 =>
    (detailStatusFromJson v7).bind fun telemetryLoggerStatus =>
    (getField fields "proxyConnectionsCount").bind fun v8 =>
    (u128FromJson v8).bind fun proxyConnectionsCount =>
    some { version := version, status := status, monitorStatus := monitorStatus,
           keyLatchStatus := keyLatchStatus, ebpfProgramStatus := ebpfProgramStatus,
           proxyListenerStatus := proxyListenerStatus,
           telemetryLoggerStatus := telemetryLoggerStatus,
           proxyConnectionsCount := proxyConnectionsCount }
  | _ => none

def proxyConnectionSummaryFromJson : JValue → Option ProxyConnectionSummary
  | .obj fields =>
    (getField fields "userName").bind fun v1 =>
    (strFromJson v1).bind fun userName =>
    (getField fields "ip").bind fun v2 =>
    (strFromJson v2).bind fun ip =>
    (getField fields "port").bind fun v3 =>
    (u16FromJson v3).bind fun port =>
    (getField fields "processCmdLine").bind fun v4 =>
    (strFromJson v4).bind fun processCmdLine =>
    (getField fields "responseStatus").bind fun v5 =>
    (strFromJson v5).bind fun responseStatus =>
    (getField fields "count").bind fun v6 =>
    (u64FromJson v6).bind fun count =>
    (optField fields "userGroups" strListFromJson).bind fun userGroups =>
    (optField fields "processFullPath" strFromJson).bind fun processFullPath =>
    some { userName := userName, ip := ip, port := port,
           processCmdLine := processCmdLine, responseStatus := responseStatus,
           count := count, userGroups := userGroups,
           processFullPath := processFullPath }
  | _ => none

def aggregateStatusFromJson : JValue → Option GuestProxyAgentAggregateStatus
  | .obj fields =>
    (getField fields "timestamp").bind fun v1 =>
    (strFromJson v1).bind fun timestamp =>
    (getField fields "proxyAgentStatus").bind fun v2 =>
    (proxyAgentStatusFromJson v2).bind fun proxyAgentStatus =>
    (getField fields "proxyConnectionSummary").bind fun v3 =>
    (match v3 with
     | .arr elems => traverseOpt proxyConnectionSummaryFromJson elems
     | _ => none).bind fun proxyConnectionSummary =>
    (getField fields "failedAuthenticateSummary").bind fun v4 =>
    (match v4 with
     | .arr elems => traverseOpt proxyConnectionSummaryFromJson elems
     | _ => none).bind fun failedAuthenticateSummary =>
    some { timestamp := timestamp, proxyAgentStatus := proxyAgentStatus,
           proxyConnectionSummary := proxyConnectionSummary,
           failedAuthenticateSummary := failedAuthenticateSummary }
  | _ => none

/-! Error facade (src/proxy_agent/src/common/error.rs). Foreign error types
(std::io::Error, hex::FromHexError, hyper::Error, http::uri::InvalidUri) are
used by this module only through their Display rendering, so each is embedded
as a wrapper around that rendered message. -/

/-- Models std::io::Error through its Display output. -/
structure IoError where
  msg : String
deriving DecidableEq, Repr

/-- Models hex::FromHexError through its Display output. -/
structure FromHexError where
  msg : String
deriving DecidableEq, Repr

/-- Models hyper::Error through its Display output. -/
structure HyperLibError where
  msg : String
deriving DecidableEq, Repr

/-- Models http::uri::InvalidUri through its Display output. -/
structure InvalidUri where
  msg : String
deriving DecidableEq, Repr

/-- Display of InvalidUri (what `error.to_string()` yields on it). -/
def InvalidUri.render (e : InvalidUri) : String := e.msg

/-- Models http::StatusCode: a code in 100..=999 (StatusCode::from_u16
rejects anything else). -/
structure StatusCode where
  code : Nat
  ge100 : 100 ≤ code
  le999 : code ≤ 999
deriving DecidableEq, Repr

/-- The canonical reason phrases of the http crate (StatusCode::canonical_reason). -/
def canonicalReason : Nat → Option String
  | 100 => some "Continue"
  | 101 => some "Switching Protocols"
  | 102 => some "Processing"
  | 200 => some "OK"
  | 201 => some "Created"
  | 202 => some "Accepted"
  | 203 => some "Non-Authoritative Information"
  | 204 => some "No Content"
  | 205 => some "Reset Content"
  | 206 => some "Partial Content"
  | 207 => some "Multi-Status"
  | 208 => some "Already Reported"
  | 226 => some "IM Used"
  | 300 => some "Multiple Choices"
  | 301 => some "Moved Permanently"
  | 302 => some "Found"
  | 303 => some "See Other"
  | 304 => some "Not Modified"
  | 305 => some "Use Proxy"
  | 307 => some "Temporary Redirect"
  | 308 => some "Permanent Redirect"
  | 400 => some "Bad Request"
  | 401 => some "Unauthorized"
  | 402 => some "Payment Required"
  | 403 => some "Forbidden"
  | 404 => some "Not Found"
  | 405 => some "Method Not Allowed"
  | 406 => some "Not Acceptable"
  | 407 => some "Proxy Authentication Required"
  | 408 => some "Request Timeout"
  | 409 => some "Conflict"
  | 410 => some "Gone"
  | 411 => some "Length Required"
  | 412 => some "Precondition Failed"
  | 413 => some "Payload Too Large"
  | 414 => some "URI Too Long"
  | 415 => some "Unsupported Media Type"
  | 416 => some "Range Not Satisfiable"
  | 417 => some "Expectation Failed"
  | 418 => some "I\x27m a teapot"
  | 421 => some "Misdirected Request"
  | 422 => some "Unprocessable Entity"
  | 423 => some "Locked"
  | 424 => some "Failed Dependency"
  | 426 => some "Upgrade Required"
  | 428 => some "Precondition Required"
  | 429 => some "Too Many Requests"
  | 431 => some "Request Header Fields Too Large"
  | 451 => some "Unavailable For Legal Reasons"
  | 500 => some "Internal Server Error"
  | 501 => some "Not Implemented"
  | 502 => some "Bad Gateway"
  | 503 => some "Service Unavailable"
  | 504 => some "Gateway Timeout"
  | 505 => some "HTTP Version Not Supported"
  | 506 => some "Variant Also Negotiates"
  | 507 => some "Insufficient Storage"
  | 508 => some "Loop Detected"
  | 510 => some "Not Extended"
  | 511 => some "Network Authentication Required"
  | _ => none

/-- Display of http::StatusCode: the number, a space, then the canonical
reason phrase (or the fixed fallback text when the code has none). -/
def StatusCode.render (s : StatusCode) : String :=
  toString s.code ++ " " ++
    (match canonicalReason s.code with
     | some r => r
     | none => "<unknown status code>")

inductive HyperErrorType where
  | Custom (context : String) (cause : HyperLibError)
  | RequestBuilder (reason : String)
  | ServerError (target : String) (status : StatusCode)
  | Deserialize (reason : String)
deriving DecidableEq, Repr

inductive WireServerErrorType where
  | Telemetry
  | GoalState
  | SharedConfig
deriving DecidableEq, Repr

inductive KeyErrorType where
  | KeyStatusValidation (detail : String)
  | SendKeyRequest (action : String) (innerText : String)
  | KeyResponse (action : String) (status : StatusCode)
  | ParseKeyUrl (base : String) (path : String) (cause : InvalidUri)
deriving DecidableEq, Repr

/-- The private ErrorType enum. The Rust variant named after input/output
failures is called `Io` here. -/
inductive ErrorType where
  | Io (context : String) (cause : IoError)
  | Hyper (e : HyperErrorType)
  | Hex (context : String) (cause : FromHexError)
  | Key (e : KeyErrorType)
  | WireServer (e : WireServerErrorType) (message : String)
  | ParseUrl (url : String) (message : String)
deriving DecidableEq, Repr

/-- The opaque public Error type: a box around one ErrorType (the Box is
value-transparent). -/
structure Error where
  val : ErrorType
deriving DecidableEq, Repr

def Error.new (e : ErrorType) : Error := ⟨e⟩

/-- Error::io. -/
def Error.ioErr (message : String) (e : IoError) : Error :=
  Error.new (.Io message e)

def Error.hyper (e : HyperErrorType) : Error :=
  Error.new (.Hyper e)

def Error.hex (message : String) (e : FromHexError) : Error :=
  Error.new (.Hex message e)

def Error.key (e : KeyErrorType) : Error :=
  Error.new (.Key e)

/-- Error::parse_url renders the InvalidUri cause to its string at
construction time. -/
def Error.parse_url (url : String) (e : InvalidUri) : Error :=
  Error.new (.ParseUrl url e.render)

def Error.parse_url_message (url : String) (message : String) : Error :=
  Error.new (.ParseUrl url message)

def Error.wire_server (t : WireServerErrorType) (message : String) : Error :=
  Error.new (.WireServer t message)

/-! Display rendering, one fixed template per variant (the thiserror
`#[error("...")]` attributes). -/

def HyperErrorType.render : HyperErrorType → String
  | .Custom context cause => context ++ ": " ++ cause.msg
  | .RequestBuilder reason => "Failed to build request with error: " ++ reason
  | .ServerError target status =>
      "Failed to get response from " ++ target ++ ", status code: " ++ status.render
  | .Deserialize reason => "Deserialization failed: " ++ reason

def WireServerErrorType.render : WireServerErrorType → String
  | .Telemetry => "Telemetry call to wire server failed"
  | .GoalState => "Goal state call to wire server failed"
  | .SharedConfig => "Shared config call to wire server failed"

def KeyErrorType.render : KeyErrorType → String
  | .KeyStatusValidation detail =>
      "Key status validation failed with the error: " ++ detail
  | .SendKeyRequest action innerText =>
      "Failed to send " ++ action ++ " key with error: " ++ innerText
  | .KeyResponse action status =>
      "Failed to " ++ action ++ " key with status code: " ++ status.render
  | .ParseKeyUrl base path cause =>
      "Failed to join " ++ base ++ " and " ++ path ++ " with error: " ++ cause.render

def ErrorType.render : ErrorType → String
  | .Io context cause => "IO error: " ++ context ++ ": " ++ cause.msg
  | .Hyper e => e.render
  | .Hex context cause =>
      "Hex encoded key \x27" ++ context ++ "\x27 is invalid: " ++ cause.msg
  | .Key e => "Key error: " ++ e.render
  | .WireServer e message => e.render ++ " with the error: " ++ message
  | .ParseUrl url message =>
      "Failed to parse URL " ++ url ++ " with error: " ++ message

/-- Display of Error delegates to the boxed ErrorType (what `to_string()`
yields). -/
def Error.render (e : Error) : String := e.val.render

/-! Clone of ProxyConnectionSummary (the manual `impl Clone`): a fresh value
built field by field (fields listed in the order of the Rust impl, which
differs from declaration order). Cloning a String / Option / Vec copies the
data, so in the value model each field is carried over unchanged. -/

def ProxyConnectionSummary.clone (s : ProxyConnectionSummary) : ProxyConnectionSummary :=
  { userName := s.userName,
    userGroups := s.userGroups,
    ip := s.ip,
    port := s.port,
    processFullPath := s.processFullPath,
    processCmdLine := s.processCmdLine,
    responseStatus := s.responseStatus,
    count := s.count }

/-- In-place update of the `count` field of a summary (a Rust assignment
`s.count = c`). -/
def ProxyConnectionSummary.setCount (s : ProxyConnectionSummary) (c : Fin (2 ^ 64)) :
    ProxyConnectionSummary :=
  { s with count := c }

/-- A store of ProxyConnectionSummary values addressed by location, to state
that a clone occupies storage disjoint from its source: mutating one
location leaves every other location untouched. -/
def Store : Type := Nat → ProxyConnectionSummary

/-- Writing a value at one location of the store. -/
def Store.write (st : Store) (j : Nat) (v : ProxyConnectionSummary) : Store :=
  fun k => if k = j then v else st k

/-- Cloning the summary at location `i` into a fresh location `j` and then
mutating the copy's `count` there. -/
def Store.cloneThenSetCount (st : Store) (i j : Nat) (c : Fin (2 ^ 64)) : Store :=
  st.write j (((st i).clone).setCount c)

/-! Sample values, used to evaluate the verified properties at concrete
inputs. -/

def statusCode500 : StatusCode :=
  ⟨500, by norm_num, by norm_num⟩

def sampleDetailNone : ProxyAgentDetailStatus :=
  { status := .RUNNING, message := "ok", states := none }

def sampleDetailEmpty : ProxyAgentDetailStatus :=
  { status := .RUNNING, message := "ok", states := some [] }

def sampleSummaryNone : ProxyConnectionSummary :=
  { userName := "user", ip := "127.0.0.1", port := ⟨80, by norm_num⟩,
    processCmdLine := "cmd", responseStatus := "200", count := ⟨1, by norm_num⟩,
    userGroups := none, processFullPath := none }

def sampleAgentStatus : ProxyAgentStatus :=
  { version := "1.0", status := .SUCCESS, monitorStatus := sampleDetailNone,
    keyLatchStatus := sampleDetailNone, ebpfProgramStatus := sampleDetailNone,
    proxyListenerStatus := sampleDetailNone,
    telemetryLoggerStatus := sampleDetailNone,
    proxyConnectionsCount := ⟨2, by norm_num⟩ }

def sampleAggregate : GuestProxyAgentAggregateStatus :=
  { timestamp := "t", proxyAgentStatus := sampleAgentStatus,
    proxyConnectionSummary := [sampleSummaryNone],
    failedAuthenticateSummary := [] }

def sampleStore : Store := fun _ => sampleSummaryNone

def sampleCount : Fin (2 ^ 64) := ⟨5, by norm_num⟩

/-! Helper lemmas: serialize-then-deserialize is the identity, component by
component. -/

theorem moduleState_fromJson_toJson (m : ModuleState) :
    moduleStateFromJson (moduleStateToJson m) = some m := by
  cases m <;> rfl

theorem overallState_fromJson_toJson (s : OverallState) :
    overallStateFromJson (overallStateToJson s) = some s := by
  cases s <;> rfl

theorem traverseOpt_map (f : α → β) (g : β → Option α)
    (h : ∀ a, g (f a) = some a) (l : List α) :
    traverseOpt g (l.map f) = some l := by
  induction l with
  | nil => rfl
  | cons a t ih => simp [traverseOpt, h, ih]

theorem states_fromJson_toJson (m : List (String × String)) :
    statesFromJson (.obj (m.map fun p => (p.1, .str p.2))) = some m := by
  have h : ∀ p : String × String, stateEntryFromJson (p.1, .str p.2) = some p := by
    rintro ⟨k, v⟩; rfl
  simpa [statesFromJson] using
    traverseOpt_map (fun p : String × String => (p.1, JValue.str p.2))
      stateEntryFromJson h m

theorem strList_fromJson_toJson (xs : List String) :
    strListFromJson (.arr (xs.map JValue.str)) = some xs := by
  simpa [strListFromJson] using
    traverseOpt_map JValue.str strFromJson (fun s => rfl) xs

theorem detailStatus_fromJson_toJson (d : ProxyAgentDetailStatus) :
    detailStatusFromJson (detailStatusToJson d) = some d := by
  obtain ⟨st, msg, states⟩ := d
  cases states with
  | none =>
    simp [detailStatusFromJson, detailStatusToJson, detailStatusEntries,
      getField, optField, List.lookup, moduleState_fromJson_toJson, strFromJson]
  | some m =>
    simp [detailStatusFromJson, detailStatusToJson, detailStatusEntries,
      getField, optField, List.lookup, moduleState_fromJson_toJson, strFromJson,
      statesToJson, states_fromJson_toJson]

theorem proxyConnectionSummary_fromJson_toJson (s : ProxyConnectionSummary) :
    proxyConnectionSummaryFromJson (proxyConnectionSummaryToJson s) = some s := by
  obtain ⟨userName, ip, port, processCmdLine, responseStatus, count, userGroups,
    processFullPath⟩ := s
  cases userGroups <;> cases processFullPath <;>
    simp [proxyConnectionSummaryFromJson, proxyConnectionSummaryToJson,
      proxyConnectionSummaryEntries, getField, optField, List.lookup, strFromJson,
      u16FromJson, u64FromJson, optStrToJson, optStrListToJson,
      strList_fromJson_toJson, port.isLt, count.isLt]

theorem proxyAgentStatus_fromJson_toJson (p : ProxyAgentStatus) :
    proxyAgentStatusFromJson (proxyAgentStatusToJson p) = some p := by
  obtain ⟨version, status, m1, m2, m3, m4, m5, cnt⟩ := p
  simp [proxyAgentStatusFromJson, proxyAgentStatusToJson, proxyAgentStatusEntries,
    getField, List.lookup, strFromJson, u128FromJson,
    overallState_fromJson_toJson, detailStatus_fromJson_toJson, cnt.isLt]

theorem aggregateStatus_fromJson_toJson (g : GuestProxyAgentAggregateStatus) :
    aggregateStatusFromJson (aggregateStatusToJson g) = some g := by
  obtain ⟨timestamp, pas, conns, fails⟩ := g
  simp [aggregateStatusFromJson, aggregateStatusToJson, aggregateStatusEntries,
    getField, List.lookup, strFromJson, proxyAgentStatus_fromJson_toJson,
    traverseOpt_map proxyConnectionSummaryToJson proxyConnectionSummaryFromJson
      proxyConnectionSummary_fromJson_toJson]

/-! Claim theorems. -/

/-- C1: serializing then deserializing a GuestProxyAgentAggregateStatus
reproduces an equal value field-for-field; an absent `states` serializes with
the key omitted (so it round-trips to absent, not an empty mapping), and a
present `userGroups = none` serializes to an explicit null under the
`userGroups` key (so it round-trips to none via the null, not an omitted
key). -/
theorem aggregate_serialize_roundtrip :
    (∀ g : GuestProxyAgentAggregateStatus,
      aggregateStatusFromJson (aggregateStatusToJson g) = some g) ∧
    (∀ d : ProxyAgentDetailStatus, d.states = none →
      List.lookup "states" (detailStatusEntries d) = none) ∧
    (∀ s : ProxyConnectionSummary, s.userGroups = none →
      List.lookup "userGroups" (proxyConnectionSummaryEntries s) =
        some .null) := by
  refine ⟨aggregateStatus_fromJson_toJson, ?_, ?_⟩
  · intro d h
    simp [detailStatusEntries, h, List.lookup]
  · intro s h
    simp [proxyConnectionSummaryEntries, h, List.lookup, optStrListToJson]

/-- Witness for C1 at concrete values. -/
theorem aggregate_serialize_roundtrip_witness :
    aggregateStatusFromJson (aggregateStatusToJson sampleAggregate) =
      some sampleAggregate ∧
    List.lookup "states" (detailStatusEntries sampleDetailNone) = none ∧
    List.lookup "userGroups" (proxyConnectionSummaryEntries sampleSummaryNone) =
      some .null :=
  ⟨aggregate_serialize_roundtrip.1 sampleAggregate,
   aggregate_serialize_roundtrip.2.1 sampleDetailNone rfl,
   aggregate_serialize_roundtrip.2.2 sampleSummaryNone rfl⟩

/-- C2: for every target and status code, hyper(ServerError(t, s)) renders to
the fixed template with the status code in its standard numeric-plus-reason
form; in particular at ("testurl.com", 500) the rendering is the exact text
of the repository's own test. -/
theorem hyper_server_error_rendering :
    (∀ (t : String) (s : StatusCode),
      (Error.hyper (.ServerError t s)).render =
        "Failed to get response from " ++ t ++ ", status code: " ++ s.render) ∧
    (Error.hyper (.ServerError "testurl.com" statusCode500)).render =
      "Failed to get response from testurl.com, status code: 500 Internal Server Error" :=
  ⟨fun _ _ => rfl, rfl⟩

/-- C3: for every message, wire_server(tag, m) renders as the tag's fixed
text followed by the connective and m, for each of the three tags; the tags
themselves are a closed payload-free set. -/
theorem wire_server_rendering :
    (∀ m : String,
      (Error.wire_server .Telemetry m).render =
        "Telemetry call to wire server failed with the error: " ++ m ∧
      (Error.wire_server .GoalState m).render =
        "Goal state call to wire server failed with the error: " ++ m ∧
      (Error.wire_server .SharedConfig m).render =
        "Shared config call to wire server failed with the error: " ++ m) ∧
    (∀ t : WireServerErrorType,
      t = .Telemetry ∨ t = .GoalState ∨ t = .SharedConfig) := by
  refine ⟨fun m => ⟨rfl, rfl, rfl⟩, ?_⟩
  intro t
  cases t
  · exact Or.inl rfl
  · exact Or.inr (Or.inl rfl)
  · exact Or.inr (Or.inr rfl)

/-- C4: composition flattens to text: key(SendKeyRequest(a, render e))
renders to the outer template with the inner error's rendered string
concatenated in; in particular the transitive example of the repository's
test holds. -/
theorem key_send_key_request_composition :
    (∀ (a : String) (e : Error),
      (Error.key (.SendKeyRequest a e.render)).render =
        "Key error: Failed to send " ++ a ++ " key with error: " ++ e.render) ∧
    (Error.key (.SendKeyRequest "acquire"
        (Error.wire_server .Telemetry "Invalid response").render)).render =
      "Key error: Failed to send acquire key with error: Telemetry call to wire server failed with the error: Invalid response" :=
  ⟨fun _ _ => rfl, rfl⟩

/-- C5: among the serialized status records, `states` of
ProxyAgentDetailStatus is the only optional field whose key is omitted when
the value is absent; `userGroups` and `processFullPath` of
ProxyConnectionSummary always appear, as an explicit null when absent. -/
theorem optional_field_serialization_policy :
    (∀ d : ProxyAgentDetailStatus,
      (List.lookup "states" (detailStatusEntries d)).isSome =
        d.states.isSome) ∧
    (∀ s : ProxyConnectionSummary,
      List.lookup "userGroups" (proxyConnectionSummaryEntries s) =
        some (optStrListToJson s.userGroups) ∧
      List.lookup "processFullPath" (proxyConnectionSummaryEntries s) =
        some (optStrToJson s.processFullPath) ∧
      (s.userGroups = none → optStrListToJson s.userGroups = .null) ∧
      (s.processFullPath = none → optStrToJson s.processFullPath = .null)) := by
  constructor
  · intro d
    cases h : d.states <;> simp [detailStatusEntries, h, List.lookup]
  · intro s
    refine ⟨?_, ?_, ?_, ?_⟩
    · simp [proxyConnectionSummaryEntries, List.lookup]
    · simp [proxyConnectionSummaryEntries, List.lookup]
    · intro h; simp [h, optStrListToJson]
    · intro h; simp [h, optStrToJson]

/-- Witness for C5 at concrete values. -/
theorem optional_field_serialization_policy_witness :
    (List.lookup "states" (detailStatusEntries sampleDetailNone)).isSome =
      sampleDetailNone.states.isSome ∧
    List.lookup "userGroups" (proxyConnectionSummaryEntries sampleSummaryNone) =
      some (optStrListToJson sampleSummaryNone.userGroups) ∧
    optStrListToJson sampleSummaryNone.userGroups = .null ∧
    optStrToJson sampleSummaryNone.processFullPath = .null :=
  ⟨optional_field_serialization_policy.1 sampleDetailNone,
   (optional_field_serialization_policy.2 sampleSummaryNone).1,
   (optional_field_serialization_policy.2 sampleSummaryNone).2.2.1 rfl,
   (optional_field_serialization_policy.2 sampleSummaryNone).2.2.2 rfl⟩

/-- C6: the clone of a ProxyConnectionSummary agrees with its source on all
eight fields, and in the store model a clone placed at a fresh location and
mutated in its `count` leaves the source location entirely unchanged. -/
theorem clone_independent_copy :
    (∀ s : ProxyConnectionSummary,
      s.clone.userName = s.userName ∧ s.clone.ip = s.ip ∧
      s.clone.port = s.port ∧ s.clone.processCmdLine = s.processCmdLine ∧
      s.clone.responseStatus = s.responseStatus ∧ s.clone.count = s.count ∧
      s.clone.userGroups = s.userGroups ∧
      s.clone.processFullPath = s.processFullPath) ∧
    (∀ (st : Store) (i j : Nat) (c : Fin (2 ^ 64)), j ≠ i →
      (st.cloneThenSetCount i j c) i = st i ∧
      ((st.cloneThenSetCount i j c) j).count = c ∧
      ((st.cloneThenSetCount i j c) i).count = (st i).count) := by
  constructor
  · intro s
    exact ⟨rfl, rfl, rfl, rfl, rfl, rfl, rfl, rfl⟩
  · intro st i j c h
    refine ⟨?_, ?_, ?_⟩ <;>
      simp [Store.cloneThenSetCount, Store.write, Ne.symm h,
        ProxyConnectionSummary.setCount, ProxyConnectionSummary.clone]

/-- Witness for C6 at concrete values. -/
theorem clone_independent_copy_witness :
    (Store.cloneThenSetCount sampleStore 0 1 sampleCount) 0 = sampleStore 0 ∧
    ((Store.cloneThenSetCount sampleStore 0 1 sampleCount) 1).count =
      sampleCount :=
  ⟨(clone_independent_copy.2 sampleStore 0 1 sampleCount (by decide)).1,
   (clone_independent_copy.2 sampleStore 0 1 sampleCount (by decide)).2.1⟩

/-- C7: the `port` of every constructible ProxyConnectionSummary lies in
0..65535 — the field's type admits no other value, so no summary with an
out-of-range port can ever be observed. -/
theorem port_within_u16_range :
    ∀ s : ProxyConnectionSummary, s.port.val ≤ 65535 := by
  intro s
  have h := s.port.isLt
  norm_num at h
  omega

/-- C8: serialization preserves the declared field names verbatim and
case-sensitively, and the two status enums serialize to exactly their
variant names. -/
theorem serialized_field_names_and_enum_variants :
    (∀ g : GuestProxyAgentAggregateStatus,
      (aggregateStatusEntries g).map Prod.fst =
        ["timestamp", "proxyAgentStatus", "proxyConnectionSummary",
         "failedAuthenticateSummary"]) ∧
    (∀ p : ProxyAgentStatus,
      (proxyAgentStatusEntries p).map Prod.fst =
        ["version", "status", "monitorStatus", "keyLatchStatus",
         "ebpfProgramStatus", "proxyListenerStatus", "telemetryLoggerStatus",
         "proxyConnectionsCount"] ∧
      List.lookup "status" (proxyAgentStatusEntries p) =
        some (overallStateToJson p.status) ∧
      (overallStateToJson p.status = .str "SUCCESS" ∨
       overallStateToJson p.status = .str "ERROR" ∨
       overallStateToJson p.status = .str "UNKNOWN")) ∧
    (∀ s : ProxyConnectionSummary,
      (proxyConnectionSummaryEntries s).map Prod.fst =
        ["userName", "ip", "port", "processCmdLine", "responseStatus",
         "count", "userGroups", "processFullPath"]) ∧
    (∀ d : ProxyAgentDetailStatus,
      List.lookup "status" (detailStatusEntries d) =
        some (moduleStateToJson d.status) ∧
      (moduleStateToJson d.status = .str "UNKNOWN" ∨
       moduleStateToJson d.status = .str "RUNNING" ∨
       moduleStateToJson d.status = .str "STOPPED")) := by
  refine ⟨?_, ?_, ?_, ?_⟩
  · intro g; rfl
  · intro p
    refine ⟨rfl, ?_, ?_⟩
    · simp [proxyAgentStatusEntries, List.lookup]
    · cases h : p.status <;> simp [overallStateToJson]
  · intro s; rfl
  · intro d
    refine ⟨?_, ?_⟩
    · simp [detailStatusEntries, List.lookup]
    · cases h : d.status <;> simp [moduleStateToJson]

/-- C9: parse_url converts its InvalidUri cause to its rendered string
eagerly at construction, so it builds exactly the same error value as
parse_url_message applied to that rendering, and both render to the ParseUrl
template. -/
theorem parse_url_constructors_agree :
    ∀ (u : String) (e : InvalidUri),
      Error.parse_url u e = Error.parse_url_message u e.render ∧
      (Error.parse_url u e).val = .ParseUrl u e.render ∧
      (Error.parse_url u e).render =
        "Failed to parse URL " ++ u ++ " with error: " ++ e.render :=
  fun _ _ => ⟨rfl, rfl, rfl⟩

/-- C10: a present `states` mapping — including a present-but-empty one —
is serialized under the `states` key (an explicit empty object when empty)
and round-trips to the same present mapping, remaining distinguishable from
an absent `states`. -/
theorem present_states_serialization :
    (∀ (d : ProxyAgentDetailStatus) (m : List (String × String)),
      d.states = some m →
        List.lookup "states" (detailStatusEntries d) = some (statesToJson m) ∧
        detailStatusFromJson (detailStatusToJson d) = some d) ∧
    statesToJson [] = .obj [] := by
  constructor
  · intro d m h
    refine ⟨?_, detailStatus_fromJson_toJson d⟩
    simp [detailStatusEntries, h, List.lookup]
  · rfl

/-- Witness for C10 at a concrete detail status with an empty present
mapping. -/
theorem present_states_serialization_witness :
    List.lookup "states" (detailStatusEntries sampleDetailEmpty) =
      some (statesToJson []) ∧
    detailStatusFromJson (detailStatusToJson sampleDetailEmpty) =
      some sampleDetailEmpty :=
  ⟨(present_states_serialization.1 sampleDetailEmpty [] rfl).1,
   (present_states_serialization.1 sampleDetailEmpty [] rfl).2⟩

end GuestProxyAgent

